import Mathlib

/-!
Verification development for the WhatsApp webhook backend.

The definitions below are a shallow embedding of the repository's core
subsystems, translated directly from the Python source:

* `combine_messages`        — `tasks.py` `_combine_messages` (lines 153-214)
* `redis_set_nx_ex`, `is_duplicate`, `run_is_duplicate`
                            — `utility/message_deduplicator.py`
* `user_message_row`, `ai_message_row`, `message_router_run`
                            — `utility/message_router.py`,
                              `utility/store_message.py` `store_user_message`,
                              `utility/handle_with_ai.py` `handle_with_ai`
* `add_message`, `run_buffer`
                            — `utility/message_buffer.py` `Message_Buffer`
* `webhook_post`            — `blueprints/webhook.py` `webhook` (POST branch)
* `takeover_by_human`, `handback_to_ai`
                            — `blueprints/takeover.py`, `blueprints/handback.py`

Machine-level conventions: Python `None`-able strings become `Option String`;
Python truthiness of an optional string (`if m.get('message')`) is `truthyStr`;
times are `Nat` seconds; database transactions are made explicit through a
trace of `RouterEvent`s tagged with transaction ids, and the committed
database state only reflects transactions that commit.
-/

/-- The `"from"` sub-dictionary of a canonical (normalized) message, as
consumed by the buffer, deduplicator, router and store (`message`,
`media_id`, `mime_type` are nullable in the source). -/
structure FromField where
  phone : String
  name : String
  message_id : String
  message : Option String
  media_id : Option String
  mime_type : Option String
deriving Repr, DecidableEq

/-- A canonical message as produced by the payload normalizer and consumed by
`Message_Buffer`, `_combine_messages` and `message_router` (spec section 6).
`msgClass` is the source dictionary key `"class"` (`"text"` or `"media"`);
`context` is the nullable reply-context pointer (a prior provider message id). -/
structure NormalizedMessage where
  msgClass : String
  category : Option String
  type : String
  timestamp : String
  from_ : FromField
  context : Option String
deriving Repr, DecidableEq

/-- Python truthiness of an optional string: `None` and `""` are falsy. -/
def truthyStr : Option String → Bool
  | some s => !s.isEmpty
  | none => false

/-- The body of a message when truthy, as selected by the list comprehensions
`[m['from']['message'] for m in ... if m['from'].get('message')]` in
`_combine_messages`. -/
def truthyBody (m : NormalizedMessage) : Option String :=
  match m.from_.message with
  | some s => if s.isEmpty then none else some s
  | none => none

/-- `tasks.py` `_combine_messages` (lines 153-214).  Combines a batch of
canonical messages into one.  `none` models the `IndexError` the source would
raise on an empty list (it indexes `messages[0]`). -/
def combine_messages : List NormalizedMessage → Option NormalizedMessage
  | [] => none
  | [m] => some m
  | first_msg :: m2 :: rest =>
    let msgs := first_msg :: m2 :: rest
    let last_msg := msgs.getLastD first_msg
    let text_messages := msgs.filter (fun m => m.msgClass == "text")
    let media_messages := msgs.filter (fun m => m.msgClass == "media")
    if !text_messages.isEmpty && media_messages.isEmpty then
      let combined_text := String.intercalate "\n" (text_messages.filterMap truthyBody)
      some {
        msgClass := "text",
        category := none,
        type := first_msg.type,
        timestamp := last_msg.timestamp,
        from_ := {
          phone := first_msg.from_.phone,
          name := first_msg.from_.name,
          message_id := last_msg.from_.message_id,
          message := some combined_text,
          media_id := none,
          mime_type := none },
        context := last_msg.context }
    else if !media_messages.isEmpty then
      let last_media := media_messages.getLastD first_msg
      let all_text :=
        text_messages.filterMap truthyBody ++ media_messages.filterMap truthyBody
      let combined_caption :=
        if all_text.isEmpty then none else some (String.intercalate "\n" all_text)
      some {
        msgClass := "media",
        category := last_media.category,
        type := last_media.type,
        timestamp := last_media.timestamp,
        from_ := {
          phone := last_media.from_.phone,
          name := last_media.from_.name,
          message_id := last_media.from_.message_id,
          message := combined_caption,
          media_id := last_media.from_.media_id,
          mime_type := last_media.from_.mime_type },
        context := last_media.context }
    else
      some last_msg

/-! ## Deduplicator (`utility/message_deduplicator.py`) -/

/-- The Redis-backed dedup store: `entries` maps a cache key to its absolute
expiry time (a key is live at `now` iff `now` is before its expiry);
`reachable` models whether the Redis client call succeeds or raises. -/
structure RedisState where
  entries : List (String × Nat)
  reachable : Bool
deriving Repr, DecidableEq

/-- `CACHE_DURATION = 120` (`message_deduplicator.py` line 7). -/
def CACHE_DURATION : Nat := 120

/-- Whether `key` is present and unexpired at time `now`. -/
def redis_key_live (entries : List (String × Nat)) (key : String) (now : Nat) : Bool :=
  match entries.find? (fun e => e.1 == key) with
  | some e => decide (now < e.2)
  | none => false

/-- Redis `SET key value NX EX ttl`: atomically set only if absent, with
expiry; returns whether the set happened.  `Except.error` models the client
raising when the store is unreachable. -/
def redis_set_nx_ex (r : RedisState) (key : String) (now ttl : Nat) :
    Except Unit (Bool × RedisState) :=
  if !r.reachable then .error ()
  else if redis_key_live r.entries key now then .ok (false, r)
  else .ok (true, { r with
    entries := (key, now + ttl) :: r.entries.filter (fun e => e.1 ≠ key) })

/-- The dedup cache key `f"msg_dedup:{user_phone}:{wa_message_id}"`. -/
def dedup_key (user_phone wa_message_id : String) : String :=
  "msg_dedup:" ++ user_phone ++ ":" ++ wa_message_id

/-- `is_duplicate` (`message_deduplicator.py` lines 19-34).  Returns the
Python return value: `some false` (new message), `some true` (duplicate), or
`none` — the bare `return None` reached when the Redis call raises and the
`except` clause only logs.  Note the function itself never propagates the
exception. -/
def is_duplicate (r : RedisState) (wa_message_id user_phone : String) (now : Nat) :
    Option Bool × RedisState :=
  let cache_key := dedup_key user_phone wa_message_id
  match redis_set_nx_ex r cache_key now CACHE_DURATION with
  | .ok (true, r1) => (some false, r1)
  | .ok (false, r1) => (some true, r1)
  | .error _ => (none, r)

/-- Fold `is_duplicate` for one `(phone, message_id)` pair over a list of call
times, collecting the returned values. -/
def run_is_duplicate (r : RedisState) (wa_message_id user_phone : String) :
    List Nat → List (Option Bool) × RedisState
  | [] => ([], r)
  | t :: ts =>
    let step := is_duplicate r wa_message_id user_phone t
    let tail := run_is_duplicate step.2 wa_message_id user_phone ts
    (step.1 :: tail.1, tail.2)

/-- Truthiness test the webhook applies to `is_duplicate`'s result
(`webhook.py` line 23 `if is_duplicate(...)`): Python `None` is falsy. -/
def pyTruthy : Option Bool → Bool
  | some b => b
  | none => false

/-! ## Database rows and the router (`utility/message_router.py`,
`utility/store_message.py`, `utility/handle_with_ai.py`) -/

/-- A committed row of the `conversation` table (the columns this subsystem
touches). -/
structure ConversationRow where
  id : Nat
  phone : String
  name : String
  human_intervention_required : Bool
deriving Repr, DecidableEq

/-- A committed row of the `message` table (the columns the router writes).
`media_info` is the nullable `(media_id, mime_type)` JSON blob;
`extra_metadata` the nullable reply-context blob. -/
structure MessageRow where
  conversation_id : Nat
  direction : String
  sender_type : String
  external_id : String
  has_text : Bool
  message_text : Option String
  media_info : Option (Option String × Option String)
  extra_metadata : Option String
deriving Repr, DecidableEq

/-- The durable database: committed rows only. `next_conv_id` models the id
the next `INSERT INTO conversation ... RETURNING id` will assign. -/
structure Database where
  conversations : List ConversationRow
  messages : List MessageRow
  next_conv_id : Nat
deriving Repr, DecidableEq

/-- The inbound row built by `store_user_message` (`store_message.py` lines
20-36): direction `"inbound"`, sender `"customer"`, `has_text` from Python
truthiness of the body, `media_info` present iff `media_id` or `mime_type`
is truthy, `extra_metadata` present iff the reply context is. -/
def user_message_row (clean_data : NormalizedMessage) (conversation_id : Nat) : MessageRow :=
  { conversation_id := conversation_id,
    direction := "inbound",
    sender_type := "customer",
    external_id := clean_data.from_.message_id,
    has_text := truthyStr clean_data.from_.message,
    message_text := clean_data.from_.message,
    media_info :=
      if truthyStr clean_data.from_.media_id || truthyStr clean_data.from_.mime_type then
        some (clean_data.from_.media_id, clean_data.from_.mime_type)
      else none,
    extra_metadata := clean_data.context }

/-- The outbound row built at the end of `handle_with_ai` (lines 27-42):
direction `"outbound"`, sender `"ai"`, external id from the WhatsApp send
response. -/
def ai_message_row (conversation_id : Nat) (ai_message external_id : String) : MessageRow :=
  { conversation_id := conversation_id,
    direction := "outbound",
    sender_type := "ai",
    external_id := external_id,
    has_text := true,
    message_text := some ai_message,
    media_info := none,
    extra_metadata := none }

/-- Outcome of the external AI responder (`bot.stream_graph_updates`), an
opaque collaborator: it returns a reply (then `send_message` yields a provider
message id), or raises. -/
inductive AIOutcome
  | ok (reply_text reply_message_id : String)
  | fail
deriving Repr, DecidableEq

/-- A database operation as executed (whether or not its transaction later
commits). -/
inductive DbOp
  | selectConversation (phone : String)
  | insertConversation (phone name : String)
  | insertMessage (row : MessageRow)
deriving Repr, DecidableEq

/-- One event of a router run.  `dbOp` is tagged with the id of the
transaction (`engine.begin()` block) it executes in; `txCommit` marks that
transaction committing; `aiInvoke` carries the user text handed to the AI
responder; `sendMessage` is an outbound WhatsApp send. -/
inductive RouterEvent
  | dbOp (txId : Nat) (op : DbOp)
  | txCommit (txId : Nat)
  | aiInvoke (user_text : Option String)
  | sendMessage (text : String)
deriving Repr, DecidableEq

/-- Result of one `message_router` call. -/
structure RouterRun where
  db : Database
  trace : List RouterEvent
  result : String × Nat
deriving Repr, DecidableEq

/-- `message_router` (`message_router.py` lines 10-59) together with the
persistence helpers it calls, with transactions made explicit.

Transaction ids: `0` is the router's own `with engine.begin()` block (the
SELECT, and the conversation INSERT on first contact); `1` is the separate
transaction `store_user_message` opens because the router does not pass it
`conn` (`store_message.py` lines 43-45); `2` is the transaction
`handle_with_ai` opens for the outbound row.

Control flow per source: the SELECT runs in transaction 0; on first contact
the conversation INSERT also runs in transaction 0; `store_user_message`
commits the inbound row in its own transaction 1 immediately;
`handle_with_ai` then invokes the AI.  If the AI raises, the exception
unwinds the `with engine.begin()` block, rolling transaction 0 back (its
uncommitted conversation INSERT is discarded), and the router's `except`
returns `("Database error", 500)`.  On AI success the reply is sent, the
outbound row commits in transaction 2, and transaction 0 commits when the
block exits. -/
def message_router_run (db : Database) (msg : NormalizedMessage) (ai : AIOutcome) : RouterRun :=
  match db.conversations.find? (fun c => c.phone == msg.from_.phone) with
  | none =>
    let cid := db.next_conv_id
    let newConv : ConversationRow :=
      { id := cid, phone := msg.from_.phone, name := msg.from_.name,
        human_intervention_required := false }
    let inrow := user_message_row msg cid
    match ai with
    | .fail =>
      { db := { db with messages := db.messages ++ [inrow] },
        trace := [.dbOp 0 (.selectConversation msg.from_.phone),
                  .dbOp 0 (.insertConversation msg.from_.phone msg.from_.name),
                  .dbOp 1 (.insertMessage inrow), .txCommit 1,
                  .aiInvoke msg.from_.message],
        result := ("Database error", 500) }
    | .ok reply rmid =>
      let outrow := ai_message_row cid reply rmid
      { db := { db with
          conversations := db.conversations ++ [newConv],
          messages := db.messages ++ [inrow, outrow],
          next_conv_id := cid + 1 },
        trace := [.dbOp 0 (.selectConversation msg.from_.phone),
                  .dbOp 0 (.insertConversation msg.from_.phone msg.from_.name),
                  .dbOp 1 (.insertMessage inrow), .txCommit 1,
                  .aiInvoke msg.from_.message, .sendMessage reply,
                  .dbOp 2 (.insertMessage outrow), .txCommit 2, .txCommit 0],
        result := ("New conversation started and processed with AI", 200) }
  | some row =>
    let inrow := user_message_row msg row.id
    if row.human_intervention_required then
      { db := { db with messages := db.messages ++ [inrow] },
        trace := [.dbOp 0 (.selectConversation msg.from_.phone),
                  .dbOp 1 (.insertMessage inrow), .txCommit 1, .txCommit 0],
        result := ("Operator intervention required", 200) }
    else
      match ai with
      | .fail =>
        { db := { db with messages := db.messages ++ [inrow] },
          trace := [.dbOp 0 (.selectConversation msg.from_.phone),
                    .dbOp 1 (.insertMessage inrow), .txCommit 1,
                    .aiInvoke msg.from_.message],
          result := ("Database error", 500) }
      | .ok reply rmid =>
        let outrow := ai_message_row row.id reply rmid
        { db := { db with messages := db.messages ++ [inrow, outrow] },
          trace := [.dbOp 0 (.selectConversation msg.from_.phone),
                    .dbOp 1 (.insertMessage inrow), .txCommit 1,
                    .aiInvoke msg.from_.message, .sendMessage reply,
                    .dbOp 2 (.insertMessage outrow), .txCommit 2, .txCommit 0],
          result := ("Message processed with AI", 200) }

/-- Number of AI invocations in a trace. -/
def trace_ai_invocations (tr : List RouterEvent) : Nat :=
  (tr.filter (fun e => match e with | .aiInvoke _ => true | _ => false)).length

/-- The outbound texts sent in a trace, in order. -/
def trace_sends (tr : List RouterEvent) : List String :=
  tr.filterMap (fun e => match e with | .sendMessage t => some t | _ => none)

/-- The user texts handed to the AI responder in a trace, in order. -/
def trace_ai_texts (tr : List RouterEvent) : List (Option String) :=
  tr.filterMap (fun e => match e with | .aiInvoke t => some t | _ => none)

/-- Transaction ids of the conversation SELECT events in a trace. -/
def select_tx_ids (tr : List RouterEvent) : List Nat :=
  tr.filterMap (fun e => match e with
    | .dbOp i (.selectConversation _) => some i
    | _ => none)

/-- Transaction ids of the inbound-message INSERT events in a trace. -/
def inbound_insert_tx_ids (tr : List RouterEvent) : List Nat :=
  tr.filterMap (fun e => match e with
    | .dbOp i (.insertMessage row) => if row.direction == "inbound" then some i else none
    | _ => none)

/-- Run `message_router` over a list of queued `process_message_task`s in
order (each Celery task calls `message_router` on its own message,
`tasks.py` line 235), with a fixed AI outcome, concatenating the traces. -/
def run_message_tasks (db : Database) (ai : AIOutcome) :
    List NormalizedMessage → Database × List RouterEvent
  | [] => (db, [])
  | msg :: rest =>
    let run := message_router_run db msg ai
    let tail := run_message_tasks run.db ai rest
    (tail.1, run.trace ++ tail.2)

/-! ## Message buffer (`utility/message_buffer.py`) -/

/-- The `metadata` dictionary set on the first message of a batch
(`message_buffer.py` lines 46-51). -/
structure BufferMeta where
  phone : String
  name : String
  msgClass : String
  timestamp : String
deriving Repr, DecidableEq

/-- One per-phone entry of `self.buffers` (the `defaultdict` default has an
empty message list, empty metadata, `timer = None`, no first-message time).
`messages` holds what the source appends: `normalized_message["from"]["message"]`
— just the nullable body.  `timer` mirrors the `"timer"` field, which only
ever holds `None`. -/
structure BufferEntry where
  messages : List (Option String)
  metadata : Option BufferMeta
  timer : Option Unit
  first_message_time : Option Nat
deriving Repr, DecidableEq

/-- The `defaultdict` default entry. -/
def default_buffer_entry : BufferEntry :=
  { messages := [], metadata := none, timer := none, first_message_time := none }

/-- The `Message_Buffer` class state: debounce configuration plus the
per-phone `buffers` defaultdict. -/
structure Message_Buffer where
  debounce_time : Nat
  max_wait_time : Nat
  buffers : String → BufferEntry

/-- An event the buffer could emit toward its stored callback.  No method of
the class ever constructs one (the callback is stored in `__init__` and never
invoked), so every operation below returns an empty event list. -/
inductive BufferEvent
  | dispatched (combined : NormalizedMessage)
deriving Repr, DecidableEq

/-- The buffer produced by `get_message_buffer` (`message_buffer.py` lines
157-166): `debounce_time=3.0`, `max_wait_time=10.0`, empty buffers. -/
def initial_message_buffer : Message_Buffer :=
  { debounce_time := 3, max_wait_time := 10, buffers := fun _ => default_buffer_entry }

/-- `Message_Buffer.add_message` (lines 39-53): under the lock, look the phone
up in the defaultdict; if its message list is empty record the first-message
time and the metadata; append the message body.  Nothing else: no timer is
started, nothing is drained, the callback is not invoked — the returned event
list is empty by construction of the source. -/
def add_message (buf : Message_Buffer) (phone : String) (nm : NormalizedMessage)
    (now : Nat) : Message_Buffer × List BufferEvent :=
  let b := buf.buffers phone
  let b :=
    if b.messages.isEmpty then
      { b with
        first_message_time := some now,
        metadata := some {
          phone := nm.from_.phone, name := nm.from_.name,
          msgClass := nm.msgClass, timestamp := nm.timestamp } }
    else b
  let b := { b with messages := b.messages ++ [nm.from_.message] }
  ({ buf with buffers := fun p => if p = phone then b else buf.buffers p }, [])

/-- Fold a sequence of `add_message` calls `(phone, message, time)` over a
buffer, collecting every emitted event. -/
def run_buffer (buf : Message_Buffer) :
    List (String × NormalizedMessage × Nat) → Message_Buffer × List BufferEvent
  | [] => (buf, [])
  | (p, nm, t) :: ops =>
    let step := add_message buf p nm t
    let tail := run_buffer step.1 ops
    (tail.1, step.2 ++ tail.2)

/-- The message bodies a sequence of `add_message` calls contributes to one
phone's entry, in call order. -/
def bodies_for (phone : String) (ops : List (String × NormalizedMessage × Nat)) :
    List (Option String) :=
  ops.filterMap (fun o => if o.1 = phone then some o.2.1.from_.message else none)

/-! ## Webhook POST handler (`blueprints/webhook.py`) -/

/-- The normalized payload shapes the POST handler branches on
(`normalized_data["type"]`).  The payload normalizer module itself
(`utility/whatsapp_payload_normalizer.py`) is absent from the source tree;
its output contract is the canonical message shape of spec section 6, which
`NormalizedMessage` models, plus the status-update and unknown shapes. -/
inductive WebhookPayload
  | inbound (msg : NormalizedMessage)
  | status (id status : String)
  | other (t : String)
deriving Repr, DecidableEq

/-- Webhook-process state threaded through POST requests: the Redis dedup
store, the module-level `message_buffer`, and the Celery queues the handler
enqueues onto (`process_message_task` / `update_message_status_task`). -/
structure WebState where
  redis : RedisState
  buffer : Message_Buffer
  queued : List NormalizedMessage
  status_queue : List (String × String)

/-- HTTP outcome of the handler: a returned response, or an exception
escaping the view function (which Flask turns into a 500). -/
inductive HttpResult
  | resp (body : String) (code : Nat)
  | unhandled (exn : String)
deriving Repr, DecidableEq

/-- The POST branch of `webhook` (`webhook.py` lines 15-72).

* inbound: dedup gate (truthiness of `is_duplicate`'s return), then
  `message_buffer.add_message`, then `process_message_task.apply_async`
  inside try/except (`queue_ok` models whether the enqueue raises; either
  way the handler returns `"OK", 200`).
* status: queues `update_message_status_task` inside try/except, then line 65
  evaluates `(time.time() - start_time)` — but `start_time` is only assigned
  on the inbound path, so this raises `UnboundLocalError` before the
  `return "OK", 200` on line 67 is reached.
* other: logs and returns `"OK", 200`. -/
def webhook_post (s : WebState) (p : WebhookPayload) (now : Nat) (queue_ok : Bool) :
    WebState × HttpResult :=
  match p with
  | .inbound msg =>
    let dedup := is_duplicate s.redis msg.from_.message_id msg.from_.phone now
    if pyTruthy dedup.1 then
      ({ s with redis := dedup.2 }, .resp "OK" 200)
    else
      let buffered := add_message s.buffer msg.from_.phone msg now
      let queued := if queue_ok then s.queued ++ [msg] else s.queued
      ({ redis := dedup.2, buffer := buffered.1, queued := queued,
         status_queue := s.status_queue }, .resp "OK" 200)
  | .status id st =>
    let sq := if queue_ok then s.status_queue ++ [(id, st)] else s.status_queue
    ({ s with status_queue := sq }, .unhandled "UnboundLocalError: start_time")
  | .other _ => (s, .resp "OK" 200)

/-! ## Intervention controller (`blueprints/takeover.py`, `blueprints/handback.py`) -/

/-- Result of one takeover/handback POST: the database after the synchronous
flag write, the LangGraph state updates queued to Celery
(`update_langgraph_state_task` with `{"operator_active": b}` keyed by phone),
and the JSON response status with its HTTP code. -/
structure EndpointRun where
  db : Database
  graph_updates : List (String × Bool)
  resp : String × Nat
deriving Repr, DecidableEq

/-- `takeover_by_human` POST branch (`takeover.py` lines 12-48): validate the
phone field, `UPDATE conversation SET human_intervention_required = true
WHERE phone = ...` in its own transaction, queue the LangGraph mirror update,
return `{"status": "takeover_complete"}, 200`. -/
def takeover_by_human (db : Database) (payload_phone : Option String) : EndpointRun :=
  match payload_phone with
  | none => { db := db, graph_updates := [], resp := ("error: Missing phone", 400) }
  | some phone =>
    { db := { db with conversations := db.conversations.map (fun c =>
        if c.phone == phone then { c with human_intervention_required := true } else c) },
      graph_updates := [(phone, true)],
      resp := ("takeover_complete", 200) }

/-- `handback_to_ai` POST branch (`handback.py` lines 12-45): validate the
phone field, `UPDATE ... SET human_intervention_required = false`, queue the
mirror update, return `{"status": "handback_complete"}` (Flask default 200). -/
def handback_to_ai (db : Database) (payload_phone : Option String) : EndpointRun :=
  match payload_phone with
  | none => { db := db, graph_updates := [], resp := ("error: Missing phone", 400) }
  | some phone =>
    { db := { db with conversations := db.conversations.map (fun c =>
        if c.phone == phone then { c with human_intervention_required := false } else c) },
      graph_updates := [(phone, false)],
      resp := ("handback_complete", 200) }

/-- Apply a queue of LangGraph mirror updates (`graph.update_state` with
`operator_active`) to the mirror's per-thread view, in queue order. -/
def apply_graph_updates (mirror : String → Bool) :
    List (String × Bool) → (String → Bool)
  | [] => mirror
  | (p, b) :: rest => apply_graph_updates (fun q => if q = p then b else mirror q) rest

/-! ## Concrete fixtures used by counterexamples and witnesses -/

/-- Sample customer phone used by concrete scenarios. -/
def samplePhone : String := "15550001111"

/-- A canonical text message from the sample customer. -/
def mkTextMsg (mid : String) (body : Option String) (ts : String) : NormalizedMessage :=
  { msgClass := "text", category := none, type := "user", timestamp := ts,
    from_ := { phone := samplePhone, name := "Alice", message_id := mid,
               message := body, media_id := none, mime_type := none },
    context := none }

/-- A canonical image message from the sample customer, with a caption. -/
def mkImageMsg (mid : String) (caption : Option String) (media_id : String) (ts : String) :
    NormalizedMessage :=
  { msgClass := "media", category := some "image", type := "user", timestamp := ts,
    from_ := { phone := samplePhone, name := "Alice", message_id := mid,
               message := caption, media_id := some media_id,
               mime_type := some "image/jpeg" },
    context := none }

/-- A database holding one conversation for the sample phone with the
intervention flag clear. -/
def sampleDb : Database :=
  { conversations := [{ id := 1, phone := samplePhone, name := "Alice",
                        human_intervention_required := false }],
    messages := [], next_conv_id := 2 }

/-- A database with no conversations (first contact). -/
def emptyDb : Database := { conversations := [], messages := [], next_conv_id := 1 }

/-- A database holding one conversation for the sample phone with the
intervention flag set (operator has taken over). -/
def interventionDb : Database :=
  { conversations := [{ id := 1, phone := samplePhone, name := "Alice",
                        human_intervention_required := true }],
    messages := [], next_conv_id := 2 }

/-- C1 scenario, first inbound text (`"Hi"`). -/
def msgHi : NormalizedMessage := mkTextMsg "wamid.HI" (some "Hi") "1700000000"

/-- C1 scenario, second inbound text (`"I need a quote"`), 2 seconds later. -/
def msgQuote : NormalizedMessage := mkTextMsg "wamid.QUOTE" (some "I need a quote") "1700000002"

/-- Fresh webhook-process state: empty reachable Redis, the buffer built by
`get_message_buffer`, empty task queues. -/
def freshWebState : WebState :=
  { redis := { entries := [], reachable := true },
    buffer := initial_message_buffer, queued := [], status_queue := [] }

/-- C1 scenario: state after the webhook receives `"Hi"` at t=0. -/
def c1_state1 : WebState := (webhook_post freshWebState (.inbound msgHi) 0 true).1

/-- C1 scenario: state after the webhook then receives `"I need a quote"` at
t=2 (inside the 3-second debounce window). -/
def c1_state2 : WebState := (webhook_post c1_state1 (.inbound msgQuote) 2 true).1

/-- C1 scenario: the queued `process_message_task`s then run in order against
an empty database, the AI responder answering normally. -/
def c1_tasks : Database × List RouterEvent :=
  run_message_tasks emptyDb (.ok "AI reply" "wamid.R") c1_state2.queued

/-- C4 scenario: routing one text from the sample customer's existing
conversation, AI answering normally. -/
def c4_run : RouterRun :=
  message_router_run sampleDb (mkTextMsg "wamid.C4" (some "hello") "1700000100") (.ok "reply" "wamid.R4")

/-- C6 scenario: a first-contact message whose AI invocation raises. -/
def c6_msg : NormalizedMessage := mkTextMsg "wamid.C6" (some "hello") "1700000200"

/-- C6 scenario run: first contact, AI failure. -/
def c6_run : RouterRun := message_router_run emptyDb c6_msg .fail

/-- An unreachable Redis store. -/
def downRedis : RedisState := { entries := [], reachable := false }

/-! ## Claim statements packaged as propositions -/

/-- Whether transaction `txId` commits before the first AI invocation of the
trace (write-then-process ordering made checkable): scan the trace and stop
at the first `aiInvoke`. -/
def committed_before_first_ai (tr : List RouterEvent) (txId : Nat) : Bool :=
  match tr with
  | [] => false
  | .aiInvoke _ :: _ => false
  | .txCommit i :: rest => i == txId || committed_before_first_ai rest txId
  | _ :: rest => committed_before_first_ai rest txId

/-- C2's property at one input: with the intervention flag set, routing
commits exactly the one inbound row and neither invokes the AI nor sends;
with the flag clear and the AI answering, it commits exactly the inbound row
and the one outbound AI row, with exactly one AI invocation and one send. -/
def c2_property (db : Database) (msg : NormalizedMessage) (conv : ConversationRow)
    (reply rmid : String) : Prop :=
  (conv.human_intervention_required = true →
    ∀ ai : AIOutcome,
      (message_router_run db msg ai).db.messages
          = db.messages ++ [user_message_row msg conv.id] ∧
      (message_router_run db msg ai).db.conversations = db.conversations ∧
      trace_ai_invocations (message_router_run db msg ai).trace = 0 ∧
      trace_sends (message_router_run db msg ai).trace = []) ∧
  (conv.human_intervention_required = false →
    (message_router_run db msg (.ok reply rmid)).db.messages
        = db.messages ++ [user_message_row msg conv.id, ai_message_row conv.id reply rmid] ∧
    trace_ai_invocations (message_router_run db msg (.ok reply rmid)).trace = 1 ∧
    trace_sends (message_router_run db msg (.ok reply rmid)).trace = [reply])

/-- C3's property at one input: the first call returns `false` and installs a
record expiring `CACHE_DURATION` after it; any sequence of further calls
before expiry returns `true` each time without touching the record; a call at
or past expiry returns `false` again; and serializing any number of
same-instant callers yields exactly one `false` (the winner) followed by all
`true`. -/
def c3_property (r : RedisState) (mid phone : String) (t0 : Nat) : Prop :=
  ∃ r1 : RedisState,
    is_duplicate r mid phone t0 = (some false, r1) ∧
    (∀ ts : List Nat, (∀ t ∈ ts, t < t0 + CACHE_DURATION) →
      run_is_duplicate r1 mid phone ts = (ts.map (fun _ => some true), r1)) ∧
    (∀ t2 : Nat, t0 + CACHE_DURATION ≤ t2 →
      (is_duplicate r1 mid phone t2).1 = some false) ∧
    (∀ k : Nat, (run_is_duplicate r mid phone (t0 :: List.replicate k t0)).1
        = some false :: List.replicate k (some true))

/-- C5's property at one batch of at least two messages: the all-text branch
emits the newline-join of the truthy text bodies with phone/name from the
first message and message-id/timestamp from the last; the media branch takes
category, media id, MIME, message id and timestamp from the last media
message, and its caption is the truthy text bodies in arrival order followed
by the truthy media captions in arrival order. -/
def c5_property (first m2 : NormalizedMessage) (rest : List NormalizedMessage) : Prop :=
  let msgs := first :: m2 :: rest
  let last_msg := msgs.getLastD first
  let tm := msgs.filter (fun m => m.msgClass == "text")
  let mm := msgs.filter (fun m => m.msgClass == "media")
  ((∀ m ∈ msgs, m.msgClass = "text") →
    combine_messages msgs = some {
      msgClass := "text", category := none, type := first.type,
      timestamp := last_msg.timestamp,
      from_ := { phone := first.from_.phone, name := first.from_.name,
                 message_id := last_msg.from_.message_id,
                 message := some (String.intercalate "\n" (msgs.filterMap truthyBody)),
                 media_id := none, mime_type := none },
      context := last_msg.context }) ∧
  (∀ last_media : NormalizedMessage, mm.getLast? = some last_media →
    ∃ out : NormalizedMessage, combine_messages msgs = some out ∧
      out.msgClass = "media" ∧
      out.category = last_media.category ∧
      out.from_.media_id = last_media.from_.media_id ∧
      out.from_.mime_type = last_media.from_.mime_type ∧
      out.from_.message_id = last_media.from_.message_id ∧
      out.timestamp = last_media.timestamp ∧
      out.from_.message =
        (if (tm.filterMap truthyBody ++ mm.filterMap truthyBody).isEmpty then none
         else some (String.intercalate "\n"
            (tm.filterMap truthyBody ++ mm.filterMap truthyBody))))

/-- C9's property at one input: takeover twice succeeds both times, is
idempotent on the database, leaves the sample conversation's flag `true`, and
the queued LangGraph mirror updates of the second call change nothing; and
handback succeeds and leaves the database unchanged when the flag is already
clear. -/
def c9_property (db : Database) (phone : String) : Prop :=
  (takeover_by_human db (some phone)).resp = ("takeover_complete", 200) ∧
  (takeover_by_human (takeover_by_human db (some phone)).db (some phone)).resp
      = ("takeover_complete", 200) ∧
  (takeover_by_human (takeover_by_human db (some phone)).db (some phone)).db
      = (takeover_by_human db (some phone)).db ∧
  (∀ c ∈ (takeover_by_human db (some phone)).db.conversations,
      c.phone = phone → c.human_intervention_required = true) ∧
  (∀ m : String → Bool,
      apply_graph_updates m
        ((takeover_by_human db (some phone)).graph_updates ++
          (takeover_by_human (takeover_by_human db (some phone)).db (some phone)).graph_updates)
        = apply_graph_updates m (takeover_by_human db (some phone)).graph_updates) ∧
  (handback_to_ai db (some phone)).resp = ("handback_complete", 200) ∧
  (handback_to_ai db (some phone)).db = db

/-! ## Helper lemmas -/

lemma add_message_snd (buf : Message_Buffer) (p : String)
    (nm : NormalizedMessage) (t : Nat) :
    (add_message buf p nm t).2 = [] := rfl

lemma add_message_buffers_self (buf : Message_Buffer) (p : String)
    (nm : NormalizedMessage) (t : Nat) :
    ((add_message buf p nm t).1.buffers p).messages
        = (buf.buffers p).messages ++ [nm.from_.message] ∧
    ((add_message buf p nm t).1.buffers p).timer = (buf.buffers p).timer := by
  unfold add_message
  by_cases h : (buf.buffers p).messages.isEmpty <;> simp [h]

lemma add_message_buffers_other (buf : Message_Buffer) (p q : String)
    (nm : NormalizedMessage) (t : Nat) (hqp : q ≠ p) :
    (add_message buf p nm t).1.buffers q = buf.buffers q := by
  unfold add_message
  simp only [if_neg hqp]

lemma run_buffer_events (ops : List (String × NormalizedMessage × Nat)) :
    ∀ buf : Message_Buffer, (run_buffer buf ops).2 = [] := by
  induction ops with
  | nil => intro buf; rfl
  | cons op ops ih =>
    intro buf
    obtain ⟨p, nm, t⟩ := op
    show (add_message buf p nm t).2 ++ (run_buffer (add_message buf p nm t).1 ops).2 = []
    rw [add_message_snd, List.nil_append]
    exact ih _

lemma run_buffer_messages (ops : List (String × NormalizedMessage × Nat)) :
    ∀ (buf : Message_Buffer) (p : String),
      ((run_buffer buf ops).1.buffers p).messages
        = (buf.buffers p).messages ++ bodies_for p ops := by
  induction ops with
  | nil => intro buf p; simp [run_buffer, bodies_for]
  | cons op ops ih =>
    intro buf p
    obtain ⟨q, nm, t⟩ := op
    show ((run_buffer (add_message buf q nm t).1 ops).1.buffers p).messages = _
    rw [ih (add_message buf q nm t).1 p]
    by_cases hpq : p = q
    · subst hpq
      rw [(add_message_buffers_self buf p nm t).1]
      simp [bodies_for]
    · have hqp : ¬ q = p := fun h => hpq h.symm
      rw [add_message_buffers_other buf q p nm t hpq]
      simp [bodies_for, hqp]

lemma run_buffer_timer (ops : List (String × NormalizedMessage × Nat)) :
    ∀ (buf : Message_Buffer) (p : String),
      ((run_buffer buf ops).1.buffers p).timer = (buf.buffers p).timer := by
  induction ops with
  | nil => intro buf p; rfl
  | cons op ops ih =>
    intro buf p
    obtain ⟨q, nm, t⟩ := op
    show ((run_buffer (add_message buf q nm t).1 ops).1.buffers p).timer = _
    rw [ih (add_message buf q nm t).1 p]
    by_cases hpq : p = q
    · subst hpq
      exact (add_message_buffers_self buf p nm t).2
    · rw [add_message_buffers_other buf q p nm t hpq]

/-! ## Claim theorems -/

/-- C10: no operation of the `Message_Buffer` class ever drains or dispatches
its contents.  Over any sequence of `add_message` calls starting from the
buffer `get_message_buffer` builds: no dispatch event is ever emitted (the
stored callback is never invoked and `_combine_message` is never applied to
buffered entries — `add_message` is the class's only mutating operation and
the only one the program calls, `webhook.py` line 27); each phone's pending
list is exactly the bodies added for that phone in order (append-only
growth); and the per-phone `timer` field is still `None`. -/
theorem c10_buffer_never_dispatches (ops : List (String × NormalizedMessage × Nat))
    (p : String) :
    (run_buffer initial_message_buffer ops).2 = [] ∧
    ((run_buffer initial_message_buffer ops).1.buffers p).messages = bodies_for p ops ∧
    ((run_buffer initial_message_buffer ops).1.buffers p).timer = none := by
  refine ⟨run_buffer_events ops initial_message_buffer, ?_, ?_⟩
  · rw [run_buffer_messages ops initial_message_buffer p]
    rfl
  · rw [run_buffer_timer ops initial_message_buffer p]
    rfl

/-- C9: calling takeover twice for the same phone succeeds both times, leaves
`human_intervention_required = true`, and duplicates no side effect (the
database is unchanged by the second call and the second queued LangGraph
mirror update is a no-op); handback on a conversation whose flag is already
`false` is a no-op that returns success.  The hypothesis states the flag is
already clear, as the claim's handback half assumes. -/
theorem c9_takeover_handback_idempotent (db : Database) (phone : String)
    (hfb : ∀ c ∈ db.conversations, c.phone = phone → c.human_intervention_required = false) :
    c9_property db phone := by
  unfold c9_property
  refine ⟨rfl, rfl, ?_, ?_, ?_, rfl, ?_⟩
  · -- second takeover changes nothing: the flag update is idempotent
    simp only [takeover_by_human]
    congr 1
    rw [List.map_map]
    refine List.map_congr_left ?_
    intro c _
    by_cases h : c.phone == phone
    · simp [Function.comp, h]
    · simp [Function.comp, h]
  · -- after takeover every row for this phone has the flag set
    intro c hc hphone
    simp only [takeover_by_human] at hc
    obtain ⟨c0, _, rfl⟩ := List.mem_map.mp hc
    by_cases h : c0.phone == phone
    · simp [h]
    · simp only [h] at hphone ⊢
      simp only [Bool.false_eq_true, if_false] at hphone ⊢
      exact absurd (beq_iff_eq.mpr hphone) h
  · -- the second queued mirror update is a no-op on the mirror state
    intro m
    simp only [takeover_by_human]
    funext q
    by_cases h : q = phone <;> simp [apply_graph_updates, h]
  · -- handback: every row is already false, so the UPDATE rewrites rows to
    -- themselves
    simp only [handback_to_ai]
    have hmap : ∀ l : List ConversationRow,
        (∀ c ∈ l, c.phone = phone → c.human_intervention_required = false) →
        l.map (fun c => if c.phone == phone
            then { c with human_intervention_required := false } else c) = l := by
      intro l hl
      induction l with
      | nil => rfl
      | cons c l ih =>
        simp only [List.map_cons]
        rw [ih (fun c hc hp => hl c (List.mem_cons_of_mem _ hc) hp)]
        by_cases h : c.phone == phone
        · have hflag : c.human_intervention_required = false :=
            hl c (List.mem_cons_self _ _) (beq_iff_eq.mp h)
          obtain ⟨cid, cph, cnm, cflag⟩ := c
          simp_all
        · simp [h]
    rw [hmap db.conversations hfb]

/-- C9 witness: the theorem applied to the sample database (one conversation
for the sample phone, flag clear). -/
theorem c9_takeover_handback_idempotent_witness :
    (∀ c ∈ sampleDb.conversations, c.phone = samplePhone →
        c.human_intervention_required = false) ∧ c9_property sampleDb samplePhone :=
  ⟨by decide, c9_takeover_handback_idempotent sampleDb samplePhone (by decide)⟩

/-- C3: for every `(conversation_key, message_id)` pair with no live record,
the first `is_duplicate` call returns `false`; every subsequent call within
the 120-second expiry window returns `true` (and leaves the record
untouched); a call at or after expiry returns `false` again; and any number
of same-instant callers, serialized through the atomic `SET NX EX`, agree on
exactly one winner (one `false`, all others `true`). -/
theorem c3_is_duplicate_window (r : RedisState) (mid phone : String) (t0 : Nat)
    (hreach : r.reachable = true)
    (hfresh : redis_key_live r.entries (dedup_key phone mid) t0 = false) :
    c3_property r mid phone t0 := by
  have hfirst : is_duplicate r mid phone t0 =
      (some false,
        { entries := (dedup_key phone mid, t0 + CACHE_DURATION) ::
            r.entries.filter (fun e => e.1 ≠ dedup_key phone mid),
          reachable := r.reachable }) := by
    unfold is_duplicate redis_set_nx_ex
    simp [hreach, hfresh]
  generalize hr1 :
    ({ entries := (dedup_key phone mid, t0 + CACHE_DURATION) ::
        r.entries.filter (fun e => e.1 ≠ dedup_key phone mid),
       reachable := r.reachable } : RedisState) = r1 at hfirst
  have hr1reach : r1.reachable = true := by rw [← hr1]; exact hreach
  have hlive1 : ∀ t : Nat,
      redis_key_live r1.entries (dedup_key phone mid) t
        = decide (t < t0 + CACHE_DURATION) := by
    intro t
    rw [← hr1]
    unfold redis_key_live
    rw [List.find?_cons_of_pos _ (by simp)]
  have hdup : ∀ t : Nat, t < t0 + CACHE_DURATION →
      is_duplicate r1 mid phone t = (some true, r1) := by
    intro t ht
    simp only [is_duplicate, redis_set_nx_ex]
    rw [hlive1 t]
    simp [hr1reach, ht]
  have hrun : ∀ ts : List Nat, (∀ t ∈ ts, t < t0 + CACHE_DURATION) →
      run_is_duplicate r1 mid phone ts = (ts.map (fun _ => some true), r1) := by
    intro ts hts
    induction ts with
    | nil => rfl
    | cons t ts ih =>
      show ((is_duplicate r1 mid phone t).1 ::
          (run_is_duplicate (is_duplicate r1 mid phone t).2 mid phone ts).1,
          (run_is_duplicate (is_duplicate r1 mid phone t).2 mid phone ts).2)
        = ((t :: ts).map (fun _ => some true), r1)
      rw [hdup t (hts t (List.mem_cons_self _ _))]
      rw [ih (fun t ht => hts t (List.mem_cons_of_mem _ ht))]
      rfl
  refine ⟨r1, hfirst, hrun, ?_, ?_⟩
  · -- after expiry: the record is dead, the SET NX succeeds again
    intro t2 ht2
    simp only [is_duplicate, redis_set_nx_ex]
    rw [hlive1 t2]
    simp [hr1reach, Nat.not_lt.mpr ht2]
  · -- exactly one winner among same-instant callers
    intro k
    show ((is_duplicate r mid phone t0).1 ::
        (run_is_duplicate (is_duplicate r mid phone t0).2 mid phone
          (List.replicate k t0)).1, _).1
      = some false :: List.replicate k (some true)
    rw [hfirst]
    have : run_is_duplicate r1 mid phone (List.replicate k t0)
        = ((List.replicate k t0).map (fun _ => some true), r1) := by
      refine hrun _ ?_
      intro t ht
      rw [List.eq_of_mem_replicate ht]
      simp [CACHE_DURATION]
    rw [this]
    simp

/-- C3 witness: the theorem applied to an empty reachable store at time 0. -/
theorem c3_is_duplicate_window_witness :
    ({ entries := [], reachable := true } : RedisState).reachable = true ∧
    redis_key_live ({ entries := [], reachable := true } : RedisState).entries
      (dedup_key "15550001111" "wamid.W") 0 = false ∧
    c3_property { entries := [], reachable := true } "wamid.W" "15550001111" 0 :=
  ⟨rfl, rfl, c3_is_duplicate_window { entries := [], reachable := true }
    "wamid.W" "15550001111" 0 rfl rfl⟩

/-- C8 counterexample: with the store unreachable the inner atomic set raises
(`Except.error`), yet `is_duplicate` returns the normal value `None` —
refuting the claim that the operation fails loudly rather than swallowing the
error into a normal return value.  The third conjunct shows the caller's
truthiness test (`webhook.py` line 23) cannot tell this return apart from a
definite not-a-duplicate answer. -/
theorem c8_is_duplicate_swallows_error_cex :
    redis_set_nx_ex downRedis (dedup_key "15550001111" "wamid.X") 0 CACHE_DURATION
      = Except.error () ∧
    is_duplicate downRedis "wamid.X" "15550001111" 0 = (none, downRedis) ∧
    pyTruthy (is_duplicate downRedis "wamid.X" "15550001111" 0).1
      = pyTruthy (some false) :=
  ⟨rfl, rfl, rfl⟩

/-- C8 amended: when the underlying store is unreachable, `is_duplicate`
catches the exception, logs it, and returns Python `None` — a normal return
value that the webhook's truthiness test collapses with a definite
not-a-duplicate result; the error is swallowed, not raised to the caller. -/
theorem c8_is_duplicate_error_swallowed (r : RedisState) (mid phone : String)
    (now : Nat) (hdown : r.reachable = false) :
    is_duplicate r mid phone now = (none, r) ∧
    pyTruthy (is_duplicate r mid phone now).1 = pyTruthy (some false) := by
  constructor <;> simp [is_duplicate, redis_set_nx_ex, hdown, pyTruthy]

/-- C8 witness: the amended theorem applied to an unreachable store. -/
theorem c8_is_duplicate_error_swallowed_witness :
    downRedis.reachable = false ∧
    (is_duplicate downRedis "wamid.Y" "15550001111" 5 = (none, downRedis) ∧
     pyTruthy (is_duplicate downRedis "wamid.Y" "15550001111" 5).1
       = pyTruthy (some false)) :=
  ⟨rfl, c8_is_duplicate_error_swallowed downRedis "wamid.Y" "15550001111" 5 rfl⟩

/-- C2: for an inbound message whose conversation exists, routing with
`human_intervention_required = true` commits exactly one inbound Message row,
leaves the conversations untouched, performs zero AI invocations and zero
outbound sends (whatever the AI responder would have answered); with the flag
`false` and the AI answering, it commits exactly one inbound row and one
outbound AI row, with exactly one AI invocation and one outbound send. -/
theorem c2_router_intervention_gates_ai (db : Database) (msg : NormalizedMessage)
    (conv : ConversationRow) (reply rmid : String)
    (hconv : db.conversations.find? (fun c => c.phone == msg.from_.phone) = some conv) :
    c2_property db msg conv reply rmid := by
  constructor
  · intro hflag ai
    simp [message_router_run, hconv, hflag, trace_ai_invocations, trace_sends]
  · intro hflag
    simp [message_router_run, hconv, hflag, trace_ai_invocations, trace_sends]

/-- C2 witness: the flag-set half at the sample conversation with the
intervention flag on. -/
theorem c2_router_intervention_gates_ai_witness :
    interventionDb.conversations.find?
        (fun c => c.phone == (mkTextMsg "wamid.C2" (some "hello") "1").from_.phone)
      = some { id := 1, phone := samplePhone, name := "Alice",
               human_intervention_required := true } ∧
    c2_property interventionDb (mkTextMsg "wamid.C2" (some "hello") "1")
      { id := 1, phone := samplePhone, name := "Alice",
        human_intervention_required := true } "reply" "wamid.R2" :=
  ⟨by decide, c2_router_intervention_gates_ai interventionDb
    (mkTextMsg "wamid.C2" (some "hello") "1")
    { id := 1, phone := samplePhone, name := "Alice",
      human_intervention_required := true } "reply" "wamid.R2" (by decide)⟩

/-- C4 counterexample: on a concrete inbound message for an existing
conversation, the conversation SELECT (existence check and flag read) runs in
transaction 0 while the inbound Message INSERT runs in transaction 1 — no
transaction contains both, so the three operations are not one atomic unit of
work. -/
theorem c4_insert_not_in_router_transaction_cex :
    select_tx_ids c4_run.trace = [0] ∧
    inbound_insert_tx_ids c4_run.trace = [1] ∧
    ∀ i ∈ select_tx_ids c4_run.trace, i ∉ inbound_insert_tx_ids c4_run.trace := by
  decide

/-- C4 amended: for every inbound event the router handles, the
conversation-existence check and intervention-flag read execute in the
router's own transaction (id 0), while the inbound Message insert always
executes — and commits — in the separate transaction `store_user_message`
opens for itself (id 1), because the router never passes its connection
along. -/
theorem c4_insert_separate_transaction (db : Database) (msg : NormalizedMessage)
    (ai : AIOutcome) :
    select_tx_ids (message_router_run db msg ai).trace = [0] ∧
    inbound_insert_tx_ids (message_router_run db msg ai).trace = [1] ∧
    RouterEvent.txCommit 1 ∈ (message_router_run db msg ai).trace := by
  unfold message_router_run
  cases hf : db.conversations.find? (fun c => c.phone == msg.from_.phone) with
  | none =>
    cases ai <;>
      simp [select_tx_ids, inbound_insert_tx_ids, user_message_row, ai_message_row]
  | some row =>
    by_cases hflag : row.human_intervention_required <;> cases ai <;>
      simp [hflag, select_tx_ids, inbound_insert_tx_ids, user_message_row, ai_message_row]

/-- C6 counterexample: a first-contact message whose AI invocation fails.
The router reports the failure, the inbound Message row is committed (by
`store_user_message`'s own transaction), but the newly created Conversation
row is rolled back with the router's enclosing transaction — it was not
durably persisted before the AI invocation started and it does not survive
the failure, refuting the claim's parenthetical about the Conversation row. -/
theorem c6_new_conversation_rolled_back_cex :
    c6_run.result = ("Database error", 500) ∧
    RouterEvent.dbOp 0 (.insertConversation samplePhone "Alice") ∈ c6_run.trace ∧
    c6_run.db.conversations = [] ∧
    c6_run.db.messages = [user_message_row c6_msg 1] ∧
    RouterEvent.txCommit 0 ∉ c6_run.trace := by
  decide

/-- C6 amended: when the AI invocation fails, the inbound Message row has
been committed (in `store_user_message`'s own transaction) before the AI
invocation started and survives the failure, and no reply is sent; but the
conversation table is left exactly as it was — in particular, a first-contact
Conversation row created in the router's still-open transaction is rolled
back by the failure rather than persisted. -/
theorem c6_inbound_persisted_ai_failure (db : Database) (msg : NormalizedMessage) :
    (∃ cid : Nat, (message_router_run db msg .fail).db.messages
        = db.messages ++ [user_message_row msg cid]) ∧
    (message_router_run db msg .fail).db.conversations = db.conversations ∧
    trace_sends (message_router_run db msg .fail).trace = [] ∧
    committed_before_first_ai (message_router_run db msg .fail).trace 1 = true := by
  unfold message_router_run
  cases hf : db.conversations.find? (fun c => c.phone == msg.from_.phone) with
  | none =>
    exact ⟨⟨db.next_conv_id, by simp⟩, by simp, by simp [trace_sends],
      by simp [committed_before_first_ai]⟩
  | some row =>
    by_cases hflag : row.human_intervention_required
    · exact ⟨⟨row.id, by simp [hflag]⟩, by simp [hflag], by simp [hflag, trace_sends],
        by simp [hflag, committed_before_first_ai]⟩
    · exact ⟨⟨row.id, by simp [hflag]⟩, by simp [hflag], by simp [hflag, trace_sends],
        by simp [hflag, committed_before_first_ai]⟩

/-- C7: for POST payloads the handler returns 200 "OK" for the inbound shape
(duplicate or not, enqueue succeeding or failing) and for unknown shapes, but
on the status-update shape it evaluates `(time.time() - start_time)` with
`start_time` never assigned on that path, raising `UnboundLocalError` before
its `return "OK", 200` — Flask turns this into a 500, contradicting the
always-200 requirement. -/
theorem c7_webhook_status_branch_raises (s : WebState) (now : Nat) (q : Bool)
    (msg : NormalizedMessage) (i st t : String) :
    (webhook_post s (.inbound msg) now q).2 = .resp "OK" 200 ∧
    (webhook_post s (.other t) now q).2 = .resp "OK" 200 ∧
    (webhook_post s (.status i st) now q).2
      = .unhandled "UnboundLocalError: start_time" := by
  refine ⟨?_, rfl, rfl⟩
  simp only [webhook_post]
  split <;> rfl

/-- C1: the debounce scenario from the spec — "Hi" then "I need a quote" from
the same phone 2 seconds apart with `debounce_time = 3` — does NOT produce
one combined AI turn.  The webhook acknowledges both deliveries, buffers both
bodies (the buffer is never drained — no `check_buffer_task` is ever
scheduled and the class starts no timer), and enqueues a separate
`process_message_task` per delivery; running those tasks yields two separate
AI turns with user texts "Hi" and "I need a quote", and no turn ever carries
the combined text "Hi\nI need a quote".  This contradicts the spec's scenario
and the `Message_Buffer` class's own documented purpose ("Buffers messages
then processes them in batches"). -/
theorem c1_webhook_two_texts_two_separate_ai_turns :
    (webhook_post freshWebState (.inbound msgHi) 0 true).2 = .resp "OK" 200 ∧
    (webhook_post c1_state1 (.inbound msgQuote) 2 true).2 = .resp "OK" 200 ∧
    c1_state2.queued = [msgHi, msgQuote] ∧
    (c1_state2.buffer.buffers samplePhone).messages
      = [some "Hi", some "I need a quote"] ∧
    trace_ai_texts c1_tasks.2 = [some "Hi", some "I need a quote"] ∧
    trace_ai_invocations c1_tasks.2 = 2 ∧
    some "Hi\nI need a quote" ∉ trace_ai_texts c1_tasks.2 := by
  refine ⟨rfl, rfl, by decide, by decide, by decide, by decide, by decide⟩

/-- C5 counterexample: feed a media message with caption "A" followed by a
text "B" — arrival-order concatenation would give "A\nB", but the code
concatenates all text-message bodies first and media captions after, yielding
"B\nA".  Second pair: for the all-text batch ["X", ""] the claim's
"newline-join of the text bodies in arrival order" would give "X\n", but the
code drops falsy (empty) bodies and yields "X". -/
theorem c5_caption_not_arrival_order_cex :
    ((combine_messages [mkImageMsg "wamid.M1" (some "A") "MEDIA1" "100",
        mkTextMsg "wamid.T2" (some "B") "101"]).map (fun m => m.from_.message))
      = some (some "B\nA") ∧
    some (some "B\nA") ≠ some (some "A\nB") ∧
    ((combine_messages [mkTextMsg "wamid.X1" (some "X") "102",
        mkTextMsg "wamid.X2" (some "") "103"]).map (fun m => m.from_.message))
      = some (some "X") ∧
    some (some "X") ≠ some (some "X\n") := by
  refine ⟨by decide, by decide, by decide, by decide⟩

/-- C5 amended: `_combine_messages` is deterministic and, as amended,
order-preserving per class: a single-message batch passes through unchanged;
an all-text batch yields the newline-join of the truthy (non-empty) text
bodies in arrival order, with phone/name from the first message and
message-id/timestamp from the last; a batch with at least one media message
takes category, media id, MIME type, message id and timestamp from the last
media message, and its caption is the truthy text bodies in arrival order
followed by the truthy media captions in arrival order (not the global
arrival interleaving), or `None` when there are none. -/
theorem c5_combine_messages_amended (first m2 : NormalizedMessage)
    (rest : List NormalizedMessage) :
    (∀ m : NormalizedMessage, combine_messages [m] = some m) ∧
    c5_property first m2 rest := by
  constructor
  · intro m; rfl
  · simp only [c5_property]
    constructor
    · -- all-text batch
      intro hall
      have htm : (first :: m2 :: rest).filter (fun m => m.msgClass == "text")
          = first :: m2 :: rest :=
        List.filter_eq_self.mpr (fun m hm => by simp [hall m hm])
      have hmm : (first :: m2 :: rest).filter (fun m => m.msgClass == "media")
          = [] :=
        List.filter_eq_nil_iff.mpr (fun m hm => by simp [hall m hm])
      simp only [combine_messages]
      rw [htm, hmm]
      simp
    · -- batch with at least one media message
      intro last_media hlast
      have hmmne : (first :: m2 :: rest).filter (fun m => m.msgClass == "media") ≠ [] := by
        intro h
        rw [h] at hlast
        simp at hlast
      have hld : ((first :: m2 :: rest).filter
          (fun m => m.msgClass == "media")).getLastD first = last_media := by
        rw [List.getLastD_eq_getLast?, hlast]
        rfl
      obtain ⟨a, l, hmmeq⟩ := List.exists_cons_of_ne_nil hmmne
      rw [hmmeq] at hld
      simp only [combine_messages]
      rw [hmmeq]
      simp only [List.isEmpty_cons, Bool.and_false, Bool.not_false, if_false,
        Bool.false_eq_true, if_true]
      rw [hld]
      exact ⟨_, rfl, rfl, rfl, rfl, rfl, rfl, rfl, rfl⟩

/-- C5 witness: the amended theorem applied to a concrete text-then-image
batch, discharging the last-media hypothesis, with the resulting media
payload and caption evaluated. -/
theorem c5_combine_messages_amended_witness :
    ∃ out : NormalizedMessage,
      combine_messages [mkTextMsg "wamid.W1" (some "a") "1",
        mkImageMsg "wamid.W2" (some "b") "MEDIAW" "2"] = some out ∧
      out.from_.media_id = some "MEDIAW" ∧
      out.from_.message = some "a\nb" := by
  have h := (c5_combine_messages_amended (mkTextMsg "wamid.W1" (some "a") "1")
    (mkImageMsg "wamid.W2" (some "b") "MEDIAW" "2") []).2
  simp only [c5_property] at h
  obtain ⟨out, hout, _, _, hmid, _, _, _, hmsg⟩ :=
    h.2 (mkImageMsg "wamid.W2" (some "b") "MEDIAW" "2") (by decide)
  exact ⟨out, hout, hmid, hmsg⟩
